import Mathlib

/-!
Shallow embedding of `src/main.rs` of the `deploy` CLI: an interactive
GitHub workflow dispatcher.  The program reads configuration from the
process environment, authenticates, prompts for a target environment,
fetches the user's open pull requests via the search API, prompts for a
pull request, resolves the latest commit on its head branch, and sends a
single workflow-dispatch request.

The embedding makes every external effect an explicit oracle value
(`Config` for environment variables, `World` for remote responses and
prompt answers) and records the observable calls in an ordered event
trace.  Outcomes distinguish a successful exit, an error exit (the
`anyhow` error propagated out of `main`), and a Rust panic (unguarded
indexing / byte slicing).  Strings are modelled at character granularity.
-/

namespace Deploy

/-- Mirrors the `Issue` struct deserialized from `/search/issues`:
`number: u64` and an optional `pull_request: Option<PullRequestRef>`
marker (the `PullRequestRef` struct has no fields). -/
structure Issue where
  number : Nat
  pull_request : Option Unit
deriving DecidableEq, Repr

/-- The fields of the octocrab pull-request model that `main` reads:
`pr.number`, `pr.title` and `pr.head.ref_field` (the head branch name). -/
structure PullRequest where
  number : Nat
  title : Option String
  head_ref : String
deriving DecidableEq, Repr

/-- The field of the commit model that `main` reads: `commit.sha`. -/
structure Commit where
  sha : String
deriving DecidableEq, Repr

/-- The environment variables `main` reads via `env::var`; `none` models
an absent variable (`env::var` returning `Err`). -/
structure Config where
  github_token : Option String
  deploy_experimental_workflow_id : Option String
  github_org : Option String
  github_repo : Option String
deriving DecidableEq, Repr

/-- Oracle for every remote response and prompt answer consumed by `main`,
in the roles they play at each call site.  `none` models the call failing
(`Err` from octocrab, `Err` from `dialoguer::Select::interact`); for
`prDetail`, `none` models the per-item `.ok()` discarding a failure. -/
structure World where
  currentUser : Option String
  envChoice : Option Nat
  searchItems : Option (List Issue)
  prDetail : Nat → Option PullRequest
  prChoice : Option Nat
  listCommits : String → Option (List Commit)
  dispatchOk : Bool

/-- The observable calls `main` makes, in program order. -/
inductive Event where
  | fetchCurrentUser : Event
  | promptEnv : List String → Event
  | searchPRs : Event
  | getPRDetail : Nat → Event
  | promptPR : List String → Event
  | listCommits : String → Event
  | dispatch : String → String → List (String × String) → Event
deriving DecidableEq, Repr

/-- One constructor per `anyhow` failure site of `main`; `configMissing`
carries the variable name, the prompt and plain-`?` sites carry no
context string. -/
inductive PipelineError where
  | configMissing : String → PipelineError
  | currentUserFailed : PipelineError
  | envPromptFailed : PipelineError
  | searchFailed : PipelineError
  | prPromptFailed : PipelineError
  | commitsFailed : PipelineError
  | noCommitsOnBranch : PipelineError
  | dispatchFailed : PipelineError
deriving DecidableEq, Repr

/-- The `.context(...)` string `main` attaches at each failure site;
`none` for the sites that propagate the error with a bare `?`. -/
def contextMsg : PipelineError → Option String
  | .configMissing v => some (v ++ " not found in environment")
  | .currentUserFailed =>
      some "Failed to fetch current user. Please check your GitHub token has correct permissions"
  | .envPromptFailed => none
  | .searchFailed => some "Failed to fetch PRs. Please check repository name and permissions"
  | .prPromptFailed => none
  | .commitsFailed => none
  | .noCommitsOnBranch => some "No commits found in branch"
  | .dispatchFailed =>
      some "Failed to trigger workflow. Please check workflow inputs match your workflow file."

/-- How one run of `main` ends: `ok` is `Ok(())` (carrying the values the
final `println!`s report), `error` is an `Err` propagated out of `main`
(non-zero exit), `panicked` is a Rust panic. -/
inductive Outcome where
  | ok : String → String → Nat → Outcome
  | error : PipelineError → Outcome
  | panicked : String → Outcome
deriving DecidableEq, Repr

/-- The static environment menu built in `main`. -/
def environments : List String :=
  ["experimental1", "experimental2", "experimental3",
   "experimental4", "experimental5", "experimental6"]

/-- The first seven characters of a sha, as `&sha[..7]` yields when it is
in bounds. -/
def sha7 (s : String) : String :=
  String.mk (s.data.take 7)

/-- Models the unguarded byte slice `last_commit.sha[..7].to_string()` at
character granularity: defined exactly when the sha has at least 7
characters, and `none` models the slice panicking on a shorter sha. -/
def shaSlice7 (sha : String) : Option String :=
  if sha.length < 7 then none else some (sha7 sha)

/-- The `inputs` object of the dispatch payload built in `main`:
`commit_sha` bound to the sliced hash and `target` bound to
`format!("{}", env_selection)`, the decimal rendering of the selected
zero-based index. -/
def dispatchInputs (commit_hash : String) (env_selection : Nat) : List (String × String) :=
  [("commit_sha", commit_hash), ("target", toString env_selection)]

/-- The menu label `format!("#{} - {}", pr.number, pr.title.as_ref().unwrap_or(&String::new()))`. -/
def prTitle (pr : PullRequest) : String :=
  "#" ++ toString pr.number ++ " - " ++ pr.title.getD ""

/-- The detail-resolution loop of `main`: for each search item carrying a
`pull_request` marker, fetch the full pull request and keep it only when
the fetch succeeds (`.ok()`); failed items are dropped silently.  Returns
the collected pull requests together with the detail-fetch events, both
in program order. -/
def fetchPRs (w : World) : List Issue → List PullRequest × List Event
  | [] => ([], [])
  | issue :: rest =>
    let prev := fetchPRs w rest
    match issue.pull_request with
    | none => prev
    | some _ =>
      match w.prDetail issue.number with
      | some pr => (pr :: prev.1, Event.getPRDetail issue.number :: prev.2)
      | none => (prev.1, Event.getPRDetail issue.number :: prev.2)

/-- Lines 119-217 of `main`: list commits on the selected branch, take the
first, slice its sha, build the payload and send the dispatch.  `tr` is
the trace accumulated so far. -/
def commitFlow (wid : String) (env_selection : Nat) (w : World) (branch_name : String)
    (tr : List Event) : Outcome × List Event :=
  let tr4 := tr ++ [Event.listCommits branch_name]
  match w.listCommits branch_name with
  | none => (Outcome.error PipelineError.commitsFailed, tr4)
  | some commits =>
    match commits.head? with
    | none => (Outcome.error PipelineError.noCommitsOnBranch, tr4)
    | some last_commit =>
      match shaSlice7 last_commit.sha with
      | none => (Outcome.panicked "byte index 7 is out of bounds", tr4)
      | some commit_hash =>
        let tr5 := tr4 ++ [Event.dispatch wid branch_name (dispatchInputs commit_hash env_selection)]
        if w.dispatchOk then (Outcome.ok branch_name commit_hash env_selection, tr5)
        else (Outcome.error PipelineError.dispatchFailed, tr5)

/-- Lines 98-117 of `main`: build the menu from the fetched pull requests,
prompt for one, and index into the vector with the returned index (the
indexing panics when the index is out of bounds, in particular whenever
the vector is empty). -/
def selectionFlow (wid : String) (env_selection : Nat) (w : World) (items : List Issue)
    (tr : List Event) : Outcome × List Event :=
  let prs := (fetchPRs w items).1
  let dEvs := (fetchPRs w items).2
  let pr_titles := prs.map prTitle
  let tr3 := tr ++ dEvs ++ [Event.promptPR pr_titles]
  match w.prChoice with
  | none => (Outcome.error PipelineError.prPromptFailed, tr3)
  | some selection =>
    match prs[selection]? with
    | none => (Outcome.panicked "index out of bounds", tr3)
    | some selected_pr => commitFlow wid env_selection w selected_pr.head_ref tr3

/-- The whole of `main`, in program order: read the four environment
variables (all four before any remote call), fetch the current user,
prompt for the environment, index the environment vector, run the search,
resolve details, then select and dispatch. -/
def runPipeline (cfg : Config) (w : World) : Outcome × List Event :=
  match cfg.github_token with
  | none => (Outcome.error (PipelineError.configMissing "GITHUB_TOKEN"), [])
  | some _ =>
    match cfg.deploy_experimental_workflow_id with
    | none => (Outcome.error (PipelineError.configMissing "DEPLOY_EXPERIMENTAL_WORKFLOW_ID"), [])
    | some workflow_id =>
      match cfg.github_org with
      | none => (Outcome.error (PipelineError.configMissing "GITHUB_ORG"), [])
      | some _ =>
        match cfg.github_repo with
        | none => (Outcome.error (PipelineError.configMissing "GITHUB_REPO"), [])
        | some _ =>
          match w.currentUser with
          | none => (Outcome.error PipelineError.currentUserFailed, [Event.fetchCurrentUser])
          | some _ =>
            match w.envChoice with
            | none =>
                (Outcome.error PipelineError.envPromptFailed,
                 [Event.fetchCurrentUser, Event.promptEnv environments])
            | some env_selection =>
              match environments[env_selection]? with
              | none =>
                  (Outcome.panicked "index out of bounds",
                   [Event.fetchCurrentUser, Event.promptEnv environments])
              | some _ =>
                match w.searchItems with
                | none =>
                    (Outcome.error PipelineError.searchFailed,
                     [Event.fetchCurrentUser, Event.promptEnv environments, Event.searchPRs])
                | some items =>
                    selectionFlow workflow_id env_selection w items
                      [Event.fetchCurrentUser, Event.promptEnv environments, Event.searchPRs]

/-- Projection keeping only dispatch events, with their workflow id, git
ref and inputs. -/
def dispatchProj : Event → Option (String × String × List (String × String))
  | .dispatch wid gref ins => some (wid, gref, ins)
  | _ => none

/-- All workflow-dispatch calls recorded in a trace, in order. -/
def sentDispatches (tr : List Event) : List (String × String × List (String × String)) :=
  tr.filterMap dispatchProj

/-- True exactly on the pull-request search event. -/
def isSearchEv : Event → Bool
  | .searchPRs => true
  | _ => false

/-- True exactly on the environment-prompt event. -/
def isPromptEnvEv : Event → Bool
  | .promptEnv _ => true
  | _ => false

/-- Index of the first event satisfying `p`, if any. -/
def firstIdx (p : Event → Bool) : List Event → Option Nat
  | [] => none
  | e :: tr => if p e then some 0 else (firstIdx p tr).map (· + 1)

/-- True when a configuration variable was reported missing. -/
def isConfigError : Outcome → Bool
  | .error (.configMissing _) => true
  | _ => false

/-- Formalization of the claimed concurrency of fetch and prompt: in the
trace, the pull-request search would have to start no later than the
completion of the (atomic, blocking) environment prompt. -/
def fetchOverlapsPrompt (tr : List Event) : Bool :=
  match firstIdx isSearchEv tr, firstIdx isPromptEnvEv tr with
  | some i, some j => decide (i ≤ j)
  | _, _ => false

/-- A fixed 40-character commit sha used for concrete runs. -/
def shaFix : String := "0123456789abcdef0123456789abcdef01234567"

/-- A concrete pull request used for concrete runs. -/
def prFix : PullRequest := ⟨11, some "Add feature", "add-feat"⟩

/-- A concrete complete configuration. -/
def cfgOk : Config := ⟨some "token", some "wfid", some "acme", some "deploy"⟩

/-- A configuration with `DEPLOY_EXPERIMENTAL_WORKFLOW_ID` unset. -/
def cfgNoWfid : Config := ⟨some "token", none, some "acme", some "deploy"⟩

/-- A configuration with nothing set. -/
def cfgEmpty : Config := ⟨none, none, none, none⟩

/-- A concrete happy-path world: one open pull request on branch
`add-feat` with one commit, environment index 2 selected. -/
def wOk : World where
  currentUser := some "octocat"
  envChoice := some 2
  searchItems := some [⟨11, some ()⟩]
  prDetail := fun n => if n = 11 then some prFix else none
  prChoice := some 0
  listCommits := fun b => if b = "add-feat" then some [⟨shaFix⟩] else none
  dispatchOk := true

/-- Like `wOk` but the search returns no items at all. -/
def wEmptySearch : World :=
  { wOk with searchItems := some [] }

/-- Like `wOk` but the pull request's head branch name is empty. -/
def wEmptyBranch : World :=
  { wOk with
    prDetail := fun n => if n = 11 then some ⟨11, some "Add feature", ""⟩ else none
    listCommits := fun b => if b = "" then some [⟨shaFix⟩] else none }

/-- Like `wOk` but the branch's latest commit sha has fewer than 7
characters. -/
def wShortSha : World :=
  { wOk with listCommits := fun b => if b = "add-feat" then some [⟨"abc"⟩] else none }

/-- Like `wOk` but the identity lookup fails. -/
def wNoUser : World :=
  { wOk with currentUser := none }

/-- Like `wOk` but the branch has no commits. -/
def wNoCommits : World :=
  { wOk with listCommits := fun b => if b = "add-feat" then some [] else none }

/-- Like `wOk` but the search call itself fails. -/
def wSearchFail : World :=
  { wOk with searchItems := none }

/-- Like `wOk` but the commit listing fails and the dispatch would fail. -/
def wCommitsFail : World :=
  { wOk with listCommits := fun _ => none }

/-- Like `wOk` but the dispatch call fails. -/
def wDispatchFail : World :=
  { wOk with dispatchOk := false }

lemma sentDispatches_nil : sentDispatches [] = [] := rfl

lemma sentDispatches_append (tr tr' : List Event) :
    sentDispatches (tr ++ tr') = sentDispatches tr ++ sentDispatches tr' :=
  List.filterMap_append tr tr' dispatchProj

lemma sentDispatches_fetchPRs (w : World) (items : List Issue) :
    sentDispatches (fetchPRs w items).2 = [] := by
  induction items with
  | nil => rfl
  | cons issue rest ih =>
    cases hpr : issue.pull_request with
    | none => simpa [fetchPRs, hpr] using ih
    | some u =>
      cases hd : w.prDetail issue.number with
      | none => simpa [fetchPRs, hpr, hd, sentDispatches, dispatchProj] using ih
      | some pr => simpa [fetchPRs, hpr, hd, sentDispatches, dispatchProj] using ih

lemma fetchPRs_spec (w : World) (items : List Issue) :
    (fetchPRs w items).1 =
      (items.filter fun issue => issue.pull_request.isSome).filterMap
        fun issue => w.prDetail issue.number := by
  induction items with
  | nil => rfl
  | cons issue rest ih =>
    cases hpr : issue.pull_request with
    | none => simp [fetchPRs, hpr, ih]
    | some u =>
      cases hd : w.prDetail issue.number with
      | none => simp [fetchPRs, hpr, hd, ih]
      | some pr => simp [fetchPRs, hpr, hd, ih]

lemma sha7_length (s : String) (h : 7 ≤ s.length) : (sha7 s).length = 7 := by
  have hmk : (sha7 s).length = (s.data.take 7).length := rfl
  have hd : s.data.length = s.length := String.length_data s
  rw [hmk, List.length_take]
  omega

lemma shaSlice7_of_le (s : String) (h : 7 ≤ s.length) :
    shaSlice7 s = some (sha7 s) := by
  simp [shaSlice7, Nat.not_lt.mpr h]

lemma shaSlice7_isSome_iff (s : String) :
    (shaSlice7 s).isSome = true ↔ 7 ≤ s.length := by
  by_cases h : s.length < 7
  · simp [shaSlice7, h, Nat.not_le.mpr h]
  · simp [shaSlice7, h, Nat.not_lt.mp h]

lemma sha7_ne_empty (s : String) (h : 7 ≤ s.length) : sha7 s ≠ "" := by
  intro heq
  have hl : (sha7 s).length = 7 := sha7_length s h
  rw [heq] at hl
  exact absurd hl (by decide)

lemma toString_lt6_ne_empty (i : Nat) (h : i < 6) : toString i ≠ "" := by
  interval_cases i <;> decide

lemma environments_getElem?_lt (i : Nat) (x : String) (h : environments[i]? = some x) :
    i < 6 := by
  by_contra hge
  rw [List.getElem?_eq_none (by simpa [environments] using Nat.not_lt.mp hge)] at h
  exact Option.noConfusion h

lemma commitFlow_trace_append (wid : String) (i : Nat) (w : World) (b : String)
    (tr : List Event) : ∃ suf, (commitFlow wid i w b tr).2 = tr ++ suf := by
  cases hc : w.listCommits b with
  | none => exact ⟨[Event.listCommits b], by simp [commitFlow, hc]⟩
  | some commits =>
    cases commits with
    | nil => exact ⟨[Event.listCommits b], by simp [commitFlow, hc]⟩
    | cons c cs =>
      cases hs : shaSlice7 c.sha with
      | none => exact ⟨[Event.listCommits b], by simp [commitFlow, hc, hs]⟩
      | some commit_hash =>
        cases hd : w.dispatchOk with
        | false =>
          exact ⟨[Event.listCommits b, Event.dispatch wid b (dispatchInputs commit_hash i)],
            by simp [commitFlow, hc, hs, hd]⟩
        | true =>
          exact ⟨[Event.listCommits b, Event.dispatch wid b (dispatchInputs commit_hash i)],
            by simp [commitFlow, hc, hs, hd]⟩

lemma selectionFlow_trace_append (wid : String) (i : Nat) (w : World) (items : List Issue)
    (tr : List Event) : ∃ suf, (selectionFlow wid i w items tr).2 = tr ++ suf := by
  cases hp : w.prChoice with
  | none =>
    exact ⟨(fetchPRs w items).2 ++ [Event.promptPR ((fetchPRs w items).1.map prTitle)],
      by simp [selectionFlow, hp]⟩
  | some selection =>
    cases hg : (fetchPRs w items).1[selection]? with
    | none =>
      exact ⟨(fetchPRs w items).2 ++ [Event.promptPR ((fetchPRs w items).1.map prTitle)],
        by simp [selectionFlow, hp, hg]⟩
    | some selected_pr =>
      obtain ⟨s, hs⟩ := commitFlow_trace_append wid i w selected_pr.head_ref
        (tr ++ (fetchPRs w items).2 ++ [Event.promptPR ((fetchPRs w items).1.map prTitle)])
      refine ⟨(fetchPRs w items).2 ++ [Event.promptPR ((fetchPRs w items).1.map prTitle)] ++ s, ?_⟩
      have hsel : (selectionFlow wid i w items tr).2 =
          (commitFlow wid i w selected_pr.head_ref
            (tr ++ (fetchPRs w items).2 ++
              [Event.promptPR ((fetchPRs w items).1.map prTitle)])).2 := by
        simp [selectionFlow, hp, hg]
      rw [hsel, hs]
      simp

lemma runPipeline_trace_shape (cfg : Config) (w : World) :
    (runPipeline cfg w).2 = [] ∨
    (runPipeline cfg w).2 = [Event.fetchCurrentUser] ∨
    (runPipeline cfg w).2 = [Event.fetchCurrentUser, Event.promptEnv environments] ∨
    ∃ rest, (runPipeline cfg w).2 =
      Event.fetchCurrentUser :: Event.promptEnv environments :: Event.searchPRs :: rest := by
  cases ht : cfg.github_token with
  | none => exact Or.inl (by simp [runPipeline, ht])
  | some t =>
  cases hw : cfg.deploy_experimental_workflow_id with
  | none => exact Or.inl (by simp [runPipeline, ht, hw])
  | some wid =>
  cases ho : cfg.github_org with
  | none => exact Or.inl (by simp [runPipeline, ht, hw, ho])
  | some o =>
  cases hr : cfg.github_repo with
  | none => exact Or.inl (by simp [runPipeline, ht, hw, ho, hr])
  | some r =>
  cases hu : w.currentUser with
  | none => exact Or.inr (Or.inl (by simp [runPipeline, ht, hw, ho, hr, hu]))
  | some u =>
  cases he : w.envChoice with
  | none => exact Or.inr (Or.inr (Or.inl (by simp [runPipeline, ht, hw, ho, hr, hu, he])))
  | some i =>
  cases hg : environments[i]? with
  | none => exact Or.inr (Or.inr (Or.inl (by simp [runPipeline, ht, hw, ho, hr, hu, he, hg])))
  | some lbl =>
  cases hi : w.searchItems with
  | none =>
    exact Or.inr (Or.inr (Or.inr ⟨[], by simp [runPipeline, ht, hw, ho, hr, hu, he, hg, hi]⟩))
  | some items =>
    obtain ⟨suf, hsuf⟩ := selectionFlow_trace_append wid i w items
      [Event.fetchCurrentUser, Event.promptEnv environments, Event.searchPRs]
    refine Or.inr (Or.inr (Or.inr ⟨suf, ?_⟩))
    have hrun : (runPipeline cfg w).2 =
        (selectionFlow wid i w items
          [Event.fetchCurrentUser, Event.promptEnv environments, Event.searchPRs]).2 := by
      simp [runPipeline, ht, hw, ho, hr, hu, he, hg, hi]
    rw [hrun, hsuf]
    rfl

lemma runPipeline_reach_selection (cfg : Config) (w : World)
    (tok wid org repo u : String) (i : Nat) (items : List Issue)
    (h1 : cfg.github_token = some tok)
    (h2 : cfg.deploy_experimental_workflow_id = some wid)
    (h3 : cfg.github_org = some org)
    (h4 : cfg.github_repo = some repo)
    (h5 : w.currentUser = some u)
    (h6 : w.envChoice = some i)
    (h7 : i < 6)
    (h8 : w.searchItems = some items) :
    runPipeline cfg w =
      selectionFlow wid i w items
        [Event.fetchCurrentUser, Event.promptEnv environments, Event.searchPRs] := by
  have hg : environments[i]? = some environments[i] :=
    List.getElem?_eq_getElem (by simpa [environments] using h7)
  simp [runPipeline, h1, h2, h3, h4, h5, h6, h8, hg]

lemma runPipeline_reach_commit (cfg : Config) (w : World)
    (tok wid org repo u : String) (i : Nat) (items : List Issue) (k : Nat) (pr : PullRequest)
    (h1 : cfg.github_token = some tok)
    (h2 : cfg.deploy_experimental_workflow_id = some wid)
    (h3 : cfg.github_org = some org)
    (h4 : cfg.github_repo = some repo)
    (h5 : w.currentUser = some u)
    (h6 : w.envChoice = some i)
    (h7 : i < 6)
    (h8 : w.searchItems = some items)
    (h9 : w.prChoice = some k)
    (h10 : (fetchPRs w items).1[k]? = some pr) :
    runPipeline cfg w =
      commitFlow wid i w pr.head_ref
        ([Event.fetchCurrentUser, Event.promptEnv environments, Event.searchPRs] ++
          (fetchPRs w items).2 ++
          [Event.promptPR ((fetchPRs w items).1.map prTitle)]) := by
  rw [runPipeline_reach_selection cfg w tok wid org repo u i items h1 h2 h3 h4 h5 h6 h7 h8]
  simp [selectionFlow, h9, h10]

lemma sentDispatches_commitFlow (wid : String) (i : Nat) (w : World) (b : String)
    (tr : List Event) :
    sentDispatches (commitFlow wid i w b tr).2 = sentDispatches tr ∨
    ∃ c cs, w.listCommits b = some (c :: cs) ∧ 7 ≤ c.sha.length ∧
      sentDispatches (commitFlow wid i w b tr).2 =
        sentDispatches tr ++ [(wid, b, dispatchInputs (sha7 c.sha) i)] := by
  cases hc : w.listCommits b with
  | none =>
    left
    simp [commitFlow, hc, sentDispatches_append, sentDispatches, dispatchProj]
  | some commits =>
    cases commits with
    | nil =>
      left
      simp [commitFlow, hc, sentDispatches_append, sentDispatches, dispatchProj]
    | cons c cs =>
      by_cases h7 : c.sha.length < 7
      · left
        simp [commitFlow, hc, shaSlice7, h7, sentDispatches_append, sentDispatches, dispatchProj]
      · right
        refine ⟨c, cs, rfl, Nat.not_lt.mp h7, ?_⟩
        cases hd : w.dispatchOk with
        | false =>
          simp [commitFlow, hc, shaSlice7, h7, hd, sentDispatches_append, sentDispatches,
            dispatchProj]
        | true =>
          simp [commitFlow, hc, shaSlice7, h7, hd, sentDispatches_append, sentDispatches,
            dispatchProj]

lemma sentDispatches_selectionFlow (wid : String) (i : Nat) (w : World) (items : List Issue)
    (tr : List Event) :
    sentDispatches (selectionFlow wid i w items tr).2 = sentDispatches tr ∨
    ∃ k pr c cs, w.prChoice = some k ∧ (fetchPRs w items).1[k]? = some pr ∧
      w.listCommits pr.head_ref = some (c :: cs) ∧ 7 ≤ c.sha.length ∧
      sentDispatches (selectionFlow wid i w items tr).2 =
        sentDispatches tr ++ [(wid, pr.head_ref, dispatchInputs (sha7 c.sha) i)] := by
  have hbase :
      sentDispatches (tr ++ (fetchPRs w items).2 ++
        [Event.promptPR ((fetchPRs w items).1.map prTitle)]) = sentDispatches tr := by
    rw [sentDispatches_append, sentDispatches_append, sentDispatches_fetchPRs]
    simp [sentDispatches, dispatchProj]
  cases hp : w.prChoice with
  | none =>
    left
    have : (selectionFlow wid i w items tr).2 =
        tr ++ (fetchPRs w items).2 ++ [Event.promptPR ((fetchPRs w items).1.map prTitle)] := by
      simp [selectionFlow, hp]
    rw [this, hbase]
  | some selection =>
    cases hg : (fetchPRs w items).1[selection]? with
    | none =>
      left
      have : (selectionFlow wid i w items tr).2 =
          tr ++ (fetchPRs w items).2 ++ [Event.promptPR ((fetchPRs w items).1.map prTitle)] := by
        simp [selectionFlow, hp, hg]
      rw [this, hbase]
    | some selected_pr =>
      have hsel : (selectionFlow wid i w items tr).2 =
          (commitFlow wid i w selected_pr.head_ref
            (tr ++ (fetchPRs w items).2 ++
              [Event.promptPR ((fetchPRs w items).1.map prTitle)])).2 := by
        simp [selectionFlow, hp, hg]
      rcases sentDispatches_commitFlow wid i w selected_pr.head_ref
          (tr ++ (fetchPRs w items).2 ++ [Event.promptPR ((fetchPRs w items).1.map prTitle)])
        with hnone | ⟨c, cs, hc, hlen, hsent⟩
      · left
        rw [hsel, hnone, hbase]
      · right
        exact ⟨selection, selected_pr, c, cs, rfl, hg, hc, hlen, by rw [hsel, hsent, hbase]⟩

lemma sentDispatches_runPipeline (cfg : Config) (w : World) :
    sentDispatches (runPipeline cfg w).2 = [] ∨
    ∃ wid i items k pr c cs,
      cfg.deploy_experimental_workflow_id = some wid ∧
      w.envChoice = some i ∧ i < 6 ∧
      w.searchItems = some items ∧
      w.prChoice = some k ∧
      (fetchPRs w items).1[k]? = some pr ∧
      w.listCommits pr.head_ref = some (c :: cs) ∧
      7 ≤ c.sha.length ∧
      sentDispatches (runPipeline cfg w).2 = [(wid, pr.head_ref, dispatchInputs (sha7 c.sha) i)] := by
  cases ht : cfg.github_token with
  | none => exact Or.inl (by simp [runPipeline, ht, sentDispatches])
  | some t =>
  cases hw : cfg.deploy_experimental_workflow_id with
  | none => exact Or.inl (by simp [runPipeline, ht, hw, sentDispatches])
  | some wid =>
  cases ho : cfg.github_org with
  | none => exact Or.inl (by simp [runPipeline, ht, hw, ho, sentDispatches])
  | some o =>
  cases hr : cfg.github_repo with
  | none => exact Or.inl (by simp [runPipeline, ht, hw, ho, hr, sentDispatches])
  | some r =>
  cases hu : w.currentUser with
  | none =>
    exact Or.inl (by simp [runPipeline, ht, hw, ho, hr, hu, sentDispatches, dispatchProj])
  | some u =>
  cases he : w.envChoice with
  | none =>
    exact Or.inl (by simp [runPipeline, ht, hw, ho, hr, hu, he, sentDispatches, dispatchProj])
  | some i =>
  cases hg : environments[i]? with
  | none =>
    exact Or.inl (by simp [runPipeline, ht, hw, ho, hr, hu, he, hg, sentDispatches, dispatchProj])
  | some lbl =>
  cases hi : w.searchItems with
  | none =>
    exact Or.inl
      (by simp [runPipeline, ht, hw, ho, hr, hu, he, hg, hi, sentDispatches, dispatchProj])
  | some items =>
    have hrun : runPipeline cfg w =
        selectionFlow wid i w items
          [Event.fetchCurrentUser, Event.promptEnv environments, Event.searchPRs] := by
      simp [runPipeline, ht, hw, ho, hr, hu, he, hg, hi]
    have hlit :
        sentDispatches [Event.fetchCurrentUser, Event.promptEnv environments, Event.searchPRs] =
          [] := rfl
    rcases sentDispatches_selectionFlow wid i w items
        [Event.fetchCurrentUser, Event.promptEnv environments, Event.searchPRs]
      with hnone | ⟨k, pr, c, cs, hp, hgk, hc, hlen, hsent⟩
    · exact Or.inl (by rw [hrun, hnone, hlit])
    · exact Or.inr ⟨wid, i, items, k, pr, c, cs, rfl, rfl,
        environments_getElem?_lt i lbl hg, rfl, hp, hgk, hc, hlen,
        by rw [hrun, hsent, hlit]; rfl⟩

lemma lookup_target_dispatchInputs (h : String) (i : Nat) :
    List.lookup "target" (dispatchInputs h i) = some (toString i) := rfl

lemma lookup_commit_sha_dispatchInputs (h : String) (i : Nat) :
    List.lookup "commit_sha" (dispatchInputs h i) = some h := rfl

/-- C1 (corrected): the claim asserts that the `target` input equals the
environment label string ("experimentalN"); in the code it is
`format!("{}", env_selection)`, the decimal rendering of the zero-based
selected index.  This theorem proves the amended claim: every dispatch
event carries `target` bound to the decimal string of the selected
index. -/
theorem c1_target_is_selection_index (cfg : Config) (w : World) (i : Nat)
    (henv : w.envChoice = some i) (wid gref : String) (ins : List (String × String))
    (hmem : (wid, gref, ins) ∈ sentDispatches (runPipeline cfg w).2) :
    List.lookup "target" ins = some (toString i) := by
  rcases sentDispatches_runPipeline cfg w with h0 | ⟨wid', i', items, k, pr, c, cs,
    _, he', _, _, _, _, _, _, hsent⟩
  · rw [h0] at hmem
    exact absurd hmem (List.not_mem_nil _)
  · rw [hsent] at hmem
    have heq := List.mem_singleton.mp hmem
    have hins : ins = dispatchInputs (sha7 c.sha) i' := congrArg (fun p => p.2.2) heq
    have hii : i' = i := by
      rw [henv] at he'
      exact (Option.some.inj he').symm
    rw [hins, hii]
    exact lookup_target_dispatchInputs (sha7 c.sha) i

/-- C1 counterexample: in a concrete full run with environment index 2
selected (label "experimental3"), the payload's `target` is the string
"2", not the environment label. -/
theorem c1_counterexample :
    sentDispatches (runPipeline cfgOk wOk).2 =
      [("wfid", "add-feat", [("commit_sha", "0123456"), ("target", "2")])] ∧
    environments[2]? = some "experimental3" ∧
    ("2" : String) ≠ "experimental3" :=
  ⟨rfl, rfl, by decide⟩

/-- C1 witness: the amended theorem applied to the concrete run. -/
theorem c1_witness :
    List.lookup "target" [("commit_sha", "0123456"), ("target", "2")] = some (toString 2) :=
  c1_target_is_selection_index cfgOk wOk 2 rfl "wfid" "add-feat"
    [("commit_sha", "0123456"), ("target", "2")] (by decide)

/-- C2 (corrected): the claim asserts a clean success exit with no
pull-request prompt when the candidate set is empty; the code issues the
prompt anyway (with an empty option list) and then either the prompt
errors or `&prs[selection]` panics — it never terminates successfully and
prints no "nothing to do" message.  Amended claim proved here: with an
empty candidate set the run is never `ok`, the empty pull-request prompt
is issued, and no dispatch happens. -/
theorem c2_empty_candidates_no_clean_exit (cfg : Config) (w : World)
    (tok wid org repo u : String) (i : Nat) (items : List Issue)
    (h1 : cfg.github_token = some tok)
    (h2 : cfg.deploy_experimental_workflow_id = some wid)
    (h3 : cfg.github_org = some org)
    (h4 : cfg.github_repo = some repo)
    (h5 : w.currentUser = some u)
    (h6 : w.envChoice = some i)
    (h7 : i < 6)
    (h8 : w.searchItems = some items)
    (hempty : (fetchPRs w items).1 = []) :
    ((runPipeline cfg w).1 = Outcome.error PipelineError.prPromptFailed ∨
     (runPipeline cfg w).1 = Outcome.panicked "index out of bounds") ∧
    Event.promptPR [] ∈ (runPipeline cfg w).2 ∧
    (∀ b c e, (runPipeline cfg w).1 ≠ Outcome.ok b c e) ∧
    sentDispatches (runPipeline cfg w).2 = [] := by
  rw [runPipeline_reach_selection cfg w tok wid org repo u i items h1 h2 h3 h4 h5 h6 h7 h8]
  have hbase :
      sentDispatches ([Event.fetchCurrentUser, Event.promptEnv environments, Event.searchPRs] ++
        (fetchPRs w items).2 ++ [Event.promptPR []]) = [] := by
    rw [sentDispatches_append, sentDispatches_append, sentDispatches_fetchPRs]
    rfl
  cases hp : w.prChoice with
  | none =>
    have hout : (selectionFlow wid i w items
        [Event.fetchCurrentUser, Event.promptEnv environments, Event.searchPRs]).1 =
        Outcome.error PipelineError.prPromptFailed := by
      simp [selectionFlow, hp]
    have htr : (selectionFlow wid i w items
        [Event.fetchCurrentUser, Event.promptEnv environments, Event.searchPRs]).2 =
        [Event.fetchCurrentUser, Event.promptEnv environments, Event.searchPRs] ++
          (fetchPRs w items).2 ++ [Event.promptPR []] := by
      simp [selectionFlow, hp, hempty]
    refine ⟨Or.inl hout, ?_, ?_, by rw [htr]; exact hbase⟩
    · rw [htr]
      simp
    · intro b c e hok
      rw [hout] at hok
      exact Outcome.noConfusion hok
  | some k =>
    have hnone : (fetchPRs w items).1[k]? = none := by
      rw [hempty]
      exact List.getElem?_eq_none (by simp)
    have hout : (selectionFlow wid i w items
        [Event.fetchCurrentUser, Event.promptEnv environments, Event.searchPRs]).1 =
        Outcome.panicked "index out of bounds" := by
      simp [selectionFlow, hp, hnone]
    have htr : (selectionFlow wid i w items
        [Event.fetchCurrentUser, Event.promptEnv environments, Event.searchPRs]).2 =
        [Event.fetchCurrentUser, Event.promptEnv environments, Event.searchPRs] ++
          (fetchPRs w items).2 ++ [Event.promptPR []] := by
      simp [selectionFlow, hp, hnone, hempty]
    refine ⟨Or.inr hout, ?_, ?_, by rw [htr]; exact hbase⟩
    · rw [htr]
      simp
    · intro b c e hok
      rw [hout] at hok
      exact Outcome.noConfusion hok

/-- C2 counterexample: with zero candidates the concrete run panics at the
candidate indexing after issuing the empty pull-request prompt; it is not
a clean success exit. -/
theorem c2_counterexample :
    (runPipeline cfgOk wEmptySearch).1 = Outcome.panicked "index out of bounds" ∧
    Event.promptPR [] ∈ (runPipeline cfgOk wEmptySearch).2 ∧
    ∀ b c e, (runPipeline cfgOk wEmptySearch).1 ≠ Outcome.ok b c e := by
  refine ⟨rfl, by decide, ?_⟩
  intro b c e h
  rw [show (runPipeline cfgOk wEmptySearch).1 = Outcome.panicked "index out of bounds"
    from rfl] at h
  exact Outcome.noConfusion h

/-- C2 witness: the amended theorem applied to the concrete empty-search
run. -/
theorem c2_witness :
    ((runPipeline cfgOk wEmptySearch).1 = Outcome.error PipelineError.prPromptFailed ∨
     (runPipeline cfgOk wEmptySearch).1 = Outcome.panicked "index out of bounds") ∧
    Event.promptPR [] ∈ (runPipeline cfgOk wEmptySearch).2 ∧
    (∀ b c e, (runPipeline cfgOk wEmptySearch).1 ≠ Outcome.ok b c e) ∧
    sentDispatches (runPipeline cfgOk wEmptySearch).2 = [] :=
  c2_empty_candidates_no_clean_exit cfgOk wEmptySearch "token" "wfid" "acme" "deploy"
    "octocat" 2 [] rfl rfl rfl rfl rfl rfl (by decide) rfl rfl

/-- C3 (corrected): at most one dispatch per run, and its inputs are
exactly the keys commit_sha and target with non-empty values — but the
claimed rejection of an empty branch name does not exist in the code (see
the counterexample), so only this weakened form holds. -/
theorem c3_dispatch_once_two_nonempty_inputs (cfg : Config) (w : World) :
    (sentDispatches (runPipeline cfg w).2).length ≤ 1 ∧
    ∀ wid gref ins, (wid, gref, ins) ∈ sentDispatches (runPipeline cfg w).2 →
      ∃ h t, ins = [("commit_sha", h), ("target", t)] ∧ h ≠ "" ∧ t ≠ "" := by
  rcases sentDispatches_runPipeline cfg w with h0 | ⟨wid', i, items, k, pr, c, cs,
    _, _, hi6, _, _, _, _, hlen, hsent⟩
  · rw [h0]
    exact ⟨Nat.zero_le 1, fun wid gref ins hmem => absurd hmem (List.not_mem_nil _)⟩
  · rw [hsent]
    refine ⟨by simp, ?_⟩
    intro wid gref ins hmem
    have heq := List.mem_singleton.mp hmem
    have hins : ins = dispatchInputs (sha7 c.sha) i := congrArg (fun p => p.2.2) heq
    exact ⟨sha7 c.sha, toString i, by rw [hins]; rfl,
      sha7_ne_empty c.sha hlen, toString_lt6_ne_empty i hi6⟩

/-- C3 counterexample: a run whose selected pull request has an empty head
branch name sends the dispatch anyway, with an empty git ref — nothing in
the code fails construction on an empty branch name. -/
theorem c3_counterexample :
    sentDispatches (runPipeline cfgOk wEmptyBranch).2 =
      [("wfid", "", [("commit_sha", "0123456"), ("target", "2")])] ∧
    (runPipeline cfgOk wEmptyBranch).1 = Outcome.ok "" "0123456" 2 :=
  ⟨rfl, rfl⟩

/-- C3 witness: the amended theorem applied to the concrete happy-path
run. -/
theorem c3_witness :
    (sentDispatches (runPipeline cfgOk wOk).2).length ≤ 1 ∧
    ∃ h t, [("commit_sha", "0123456"), ("target", "2")] =
      [("commit_sha", h), ("target", t)] ∧ h ≠ "" ∧ t ≠ "" :=
  ⟨(c3_dispatch_once_two_nonempty_inputs cfgOk wOk).1,
   (c3_dispatch_once_two_nonempty_inputs cfgOk wOk).2 "wfid" "add-feat"
     [("commit_sha", "0123456"), ("target", "2")] (by decide)⟩

/-- C4 (corrected): the claim asserts the pull-request fetch runs
concurrently with the environment prompt; in the code the two are strictly
sequential: the search event always sits at trace position 2, after the
prompt at position 1, so the fetch never starts before the prompt has
completed. -/
theorem c4_fetch_strictly_after_prompt (cfg : Config) (w : World) :
    fetchOverlapsPrompt (runPipeline cfg w).2 = false ∧
    ∀ j, firstIdx isSearchEv (runPipeline cfg w).2 = some j →
      firstIdx isPromptEnvEv (runPipeline cfg w).2 = some 1 ∧ j = 2 := by
  rcases runPipeline_trace_shape cfg w with h | h | h | ⟨rest, h⟩ <;> rw [h]
  · exact ⟨rfl, fun j hj => by simp [firstIdx] at hj⟩
  · exact ⟨rfl, fun j hj => by simp [firstIdx, isSearchEv] at hj⟩
  · exact ⟨rfl, fun j hj => by simp [firstIdx, isSearchEv, isPromptEnvEv] at hj⟩
  · refine ⟨by simp [fetchOverlapsPrompt, firstIdx, isSearchEv, isPromptEnvEv], ?_⟩
    intro j hj
    simp only [firstIdx, isSearchEv, isPromptEnvEv, if_false, if_true, Option.map_some,
      Option.map_none] at hj ⊢
    refine ⟨by simp, ?_⟩
    simp at hj
    omega

/-- C4 counterexample: on the concrete full run the search does not start
at or before the environment prompt — the claimed overlap predicate is
false. -/
theorem c4_counterexample :
    fetchOverlapsPrompt (runPipeline cfgOk wOk).2 = false := rfl

/-- C4 witness: the amended theorem applied to the concrete run. -/
theorem c4_witness :
    firstIdx isPromptEnvEv (runPipeline cfgOk wOk).2 = some 1 ∧ (2 : Nat) = 2 :=
  (c4_fetch_strictly_after_prompt cfgOk wOk).2 2 rfl

/-- C5 (confirmed): every dispatched payload's commit_sha is exactly the
first 7 characters of the full sha of the first (most recent) commit
returned for the dispatched branch, and that short sha has length 7
(possible only because the full sha has length at least 7). -/
theorem c5_payload_short_sha_prefix (cfg : Config) (w : World) (wid gref : String)
    (ins : List (String × String))
    (hmem : (wid, gref, ins) ∈ sentDispatches (runPipeline cfg w).2) :
    ∃ c cs, w.listCommits gref = some (c :: cs) ∧ 7 ≤ c.sha.length ∧
      List.lookup "commit_sha" ins = some (sha7 c.sha) ∧
      (sha7 c.sha).data = c.sha.data.take 7 ∧ (sha7 c.sha).length = 7 := by
  rcases sentDispatches_runPipeline cfg w with h0 | ⟨wid', i, items, k, pr, c, cs,
    _, _, _, _, _, _, hc, hlen, hsent⟩
  · rw [h0] at hmem
    exact absurd hmem (List.not_mem_nil _)
  · rw [hsent] at hmem
    have heq := List.mem_singleton.mp hmem
    have hins : ins = dispatchInputs (sha7 c.sha) i := congrArg (fun p => p.2.2) heq
    have hgref : gref = pr.head_ref := congrArg (fun p => p.2.1) heq
    rw [hgref]
    exact ⟨c, cs, hc, hlen, by rw [hins]; rfl, rfl, sha7_length c.sha hlen⟩

/-- C5 witness: the theorem applied to the concrete run. -/
theorem c5_witness :
    ∃ c cs, wOk.listCommits "add-feat" = some (c :: cs) ∧ 7 ≤ c.sha.length ∧
      List.lookup "commit_sha" [("commit_sha", "0123456"), ("target", "2")] =
        some (sha7 c.sha) ∧
      (sha7 c.sha).data = c.sha.data.take 7 ∧ (sha7 c.sha).length = 7 :=
  c5_payload_short_sha_prefix cfgOk wOk "wfid" "add-feat"
    [("commit_sha", "0123456"), ("target", "2")] (by decide)

/-- C6 (confirmed): a branch with zero commits makes the run fail with the
dedicated no-commits error — carrying its own context message, distinct
from the plain commit-listing network error — and no dispatch call is
issued. -/
theorem c6_no_commits_fatal_no_dispatch (cfg : Config) (w : World)
    (tok wid org repo u : String) (i : Nat) (items : List Issue) (k : Nat) (pr : PullRequest)
    (h1 : cfg.github_token = some tok)
    (h2 : cfg.deploy_experimental_workflow_id = some wid)
    (h3 : cfg.github_org = some org)
    (h4 : cfg.github_repo = some repo)
    (h5 : w.currentUser = some u)
    (h6 : w.envChoice = some i)
    (h7 : i < 6)
    (h8 : w.searchItems = some items)
    (h9 : w.prChoice = some k)
    (h10 : (fetchPRs w items).1[k]? = some pr)
    (hcommits : w.listCommits pr.head_ref = some []) :
    (runPipeline cfg w).1 = Outcome.error PipelineError.noCommitsOnBranch ∧
    sentDispatches (runPipeline cfg w).2 = [] ∧
    contextMsg PipelineError.noCommitsOnBranch = some "No commits found in branch" ∧
    PipelineError.noCommitsOnBranch ≠ PipelineError.commitsFailed := by
  have hrun := runPipeline_reach_commit cfg w tok wid org repo u i items k pr
    h1 h2 h3 h4 h5 h6 h7 h8 h9 h10
  refine ⟨?_, ?_, rfl, by decide⟩
  · rw [hrun]
    simp [commitFlow, hcommits]
  · rw [hrun]
    rcases sentDispatches_commitFlow wid i w pr.head_ref
        ([Event.fetchCurrentUser, Event.promptEnv environments, Event.searchPRs] ++
          (fetchPRs w items).2 ++ [Event.promptPR ((fetchPRs w items).1.map prTitle)])
      with hnone | ⟨c, cs, hc, _, _⟩
    · rw [hnone, sentDispatches_append, sentDispatches_append, sentDispatches_fetchPRs]
      rfl
    · rw [hcommits] at hc
      simp at hc

/-- C6 witness: the theorem applied to the concrete zero-commit run. -/
theorem c6_witness :
    (runPipeline cfgOk wNoCommits).1 = Outcome.error PipelineError.noCommitsOnBranch ∧
    sentDispatches (runPipeline cfgOk wNoCommits).2 = [] :=
  ⟨(c6_no_commits_fatal_no_dispatch cfgOk wNoCommits "token" "wfid" "acme" "deploy" "octocat"
      2 [⟨11, some ()⟩] 0 prFix rfl rfl rfl rfl rfl rfl (by decide) rfl rfl (by decide) rfl).1,
   (c6_no_commits_fatal_no_dispatch cfgOk wNoCommits "token" "wfid" "acme" "deploy" "octocat"
      2 [⟨11, some ()⟩] 0 prFix rfl rfl rfl rfl rfl rfl (by decide) rfl rfl (by decide) rfl).2.1⟩

/-- C7 (corrected): the claim says DEPLOY_EXPERIMENTAL_WORKFLOW_ID is
optional with a remote-enumeration fallback; in the code it is read with a
fatal `.context(...)?` and the enumeration path is commented out.  Amended
claim proved here: the variable is required — its absence is a
configuration error before any remote call — and when present its value
is the workflow id of every dispatch. -/
theorem c7_workflow_id_required (cfg : Config) (w : World) :
    (∀ tok, cfg.github_token = some tok → cfg.deploy_experimental_workflow_id = none →
      runPipeline cfg w =
        (Outcome.error (PipelineError.configMissing "DEPLOY_EXPERIMENTAL_WORKFLOW_ID"), [])) ∧
    (∀ wid, cfg.deploy_experimental_workflow_id = some wid →
      ∀ sentWid gref ins, (sentWid, gref, ins) ∈ sentDispatches (runPipeline cfg w).2 →
        sentWid = wid) := by
  constructor
  · intro tok htok hnone
    simp [runPipeline, htok, hnone]
  · intro wid hwid sentWid gref ins hmem
    rcases sentDispatches_runPipeline cfg w with h0 | ⟨wid', i, items, k, pr, c, cs,
      hw', _, _, _, _, _, _, _, hsent⟩
    · rw [h0] at hmem
      exact absurd hmem (List.not_mem_nil _)
    · rw [hsent] at hmem
      have heq := List.mem_singleton.mp hmem
      have hfst : sentWid = wid' := congrArg (fun p => p.1) heq
      rw [hwid] at hw'
      exact hfst.trans (Option.some.inj hw').symm

/-- C7 counterexample: with the token set but the workflow id unset, the
pipeline fails immediately with a configuration error and an empty trace —
it does not fall back to enumerating workflows. -/
theorem c7_counterexample :
    runPipeline cfgNoWfid wOk =
      (Outcome.error (PipelineError.configMissing "DEPLOY_EXPERIMENTAL_WORKFLOW_ID"), []) := rfl

/-- C7 witness: the amended theorem applied to the concrete runs. -/
theorem c7_witness :
    runPipeline cfgNoWfid wOk =
      (Outcome.error (PipelineError.configMissing "DEPLOY_EXPERIMENTAL_WORKFLOW_ID"), []) ∧
    ("wfid" : String) = "wfid" :=
  ⟨(c7_workflow_id_required cfgNoWfid wOk).1 "token" rfl rfl,
   (c7_workflow_id_required cfgOk wOk).2 "wfid" rfl "wfid" "add-feat"
     [("commit_sha", "0123456"), ("target", "2")] (by decide)⟩

/-- C8 (confirmed): when GITHUB_TOKEN, GITHUB_ORG or GITHUB_REPO is
absent, the run ends in a missing-configuration error with an empty event
trace, i.e. before any remote call. -/
theorem c8_missing_config_fails_fast (cfg : Config) (w : World)
    (h : cfg.github_token = none ∨ cfg.github_org = none ∨ cfg.github_repo = none) :
    isConfigError (runPipeline cfg w).1 = true ∧ (runPipeline cfg w).2 = [] := by
  rcases h with h | h | h
  · constructor <;> simp [runPipeline, h, isConfigError]
  · cases ht : cfg.github_token with
    | none => constructor <;> simp [runPipeline, ht, isConfigError]
    | some t =>
      cases hw : cfg.deploy_experimental_workflow_id with
      | none => constructor <;> simp [runPipeline, ht, hw, isConfigError]
      | some wid => constructor <;> simp [runPipeline, ht, hw, h, isConfigError]
  · cases ht : cfg.github_token with
    | none => constructor <;> simp [runPipeline, ht, isConfigError]
    | some t =>
      cases hw : cfg.deploy_experimental_workflow_id with
      | none => constructor <;> simp [runPipeline, ht, hw, isConfigError]
      | some wid =>
        cases ho : cfg.github_org with
        | none => constructor <;> simp [runPipeline, ht, hw, ho, isConfigError]
        | some o => constructor <;> simp [runPipeline, ht, hw, ho, h, isConfigError]

/-- C8 witness: the theorem applied to the fully-unset configuration. -/
theorem c8_witness :
    (cfgEmpty.github_token = none ∨ cfgEmpty.github_org = none ∨
      cfgEmpty.github_repo = none) ∧
    isConfigError (runPipeline cfgEmpty wOk).1 = true ∧ (runPipeline cfgEmpty wOk).2 = [] :=
  ⟨Or.inl rfl, (c8_missing_config_fails_fast cfgEmpty wOk (Or.inl rfl)).1,
   (c8_missing_config_fails_fast cfgEmpty wOk (Or.inl rfl)).2⟩

/-- C9 (confirmed): per-item detail-fetch failures are dropped silently —
the candidate list is exactly the successful detail fetches of the
marker-bearing search items, in order — while a failure of any other
remote call (identity, search, commit listing, dispatch) aborts the run
with its own error. -/
theorem c9_only_detail_fetch_tolerates_failure :
    (∀ w items, (fetchPRs w items).1 =
      (items.filter fun issue => issue.pull_request.isSome).filterMap
        fun issue => w.prDetail issue.number) ∧
    (∀ cfg w tok wid org repo, cfg.github_token = some tok →
      cfg.deploy_experimental_workflow_id = some wid →
      cfg.github_org = some org → cfg.github_repo = some repo →
      w.currentUser = none →
      (runPipeline cfg w).1 = Outcome.error PipelineError.currentUserFailed) ∧
    (∀ cfg w tok wid org repo u i, cfg.github_token = some tok →
      cfg.deploy_experimental_workflow_id = some wid →
      cfg.github_org = some org → cfg.github_repo = some repo →
      w.currentUser = some u → w.envChoice = some i → i < 6 →
      w.searchItems = none →
      (runPipeline cfg w).1 = Outcome.error PipelineError.searchFailed) ∧
    (∀ cfg w tok wid org repo u i items k pr, cfg.github_token = some tok →
      cfg.deploy_experimental_workflow_id = some wid →
      cfg.github_org = some org → cfg.github_repo = some repo →
      w.currentUser = some u → w.envChoice = some i → i < 6 →
      w.searchItems = some items → w.prChoice = some k →
      (fetchPRs w items).1[k]? = some pr →
      w.listCommits pr.head_ref = none →
      (runPipeline cfg w).1 = Outcome.error PipelineError.commitsFailed) ∧
    (∀ cfg w tok wid org repo u i items k pr c cs, cfg.github_token = some tok →
      cfg.deploy_experimental_workflow_id = some wid →
      cfg.github_org = some org → cfg.github_repo = some repo →
      w.currentUser = some u → w.envChoice = some i → i < 6 →
      w.searchItems = some items → w.prChoice = some k →
      (fetchPRs w items).1[k]? = some pr →
      w.listCommits pr.head_ref = some (c :: cs) → 7 ≤ c.sha.length →
      w.dispatchOk = false →
      (runPipeline cfg w).1 = Outcome.error PipelineError.dispatchFailed) := by
  refine ⟨fetchPRs_spec, ?_, ?_, ?_, ?_⟩
  · intro cfg w tok wid org repo h1 h2 h3 h4 h5
    simp [runPipeline, h1, h2, h3, h4, h5]
  · intro cfg w tok wid org repo u i h1 h2 h3 h4 h5 h6 h7 h8
    have hg : environments[i]? = some environments[i] :=
      List.getElem?_eq_getElem (by simpa [environments] using h7)
    simp [runPipeline, h1, h2, h3, h4, h5, h6, hg, h8]
  · intro cfg w tok wid org repo u i items k pr h1 h2 h3 h4 h5 h6 h7 h8 h9 h10 hc
    have hrun := runPipeline_reach_commit cfg w tok wid org repo u i items k pr
      h1 h2 h3 h4 h5 h6 h7 h8 h9 h10
    rw [hrun]
    simp [commitFlow, hc]
  · intro cfg w tok wid org repo u i items k pr c cs h1 h2 h3 h4 h5 h6 h7 h8 h9 h10 hc hlen hd
    have hrun := runPipeline_reach_commit cfg w tok wid org repo u i items k pr
      h1 h2 h3 h4 h5 h6 h7 h8 h9 h10
    rw [hrun]
    simp [commitFlow, hc, shaSlice7_of_le c.sha hlen, hd]

/-- C9 witness: the theorem applied to concrete runs exercising each
failure site. -/
theorem c9_witness :
    (fetchPRs wOk [⟨11, some ()⟩]).1 =
      (([⟨11, some ()⟩] : List Issue).filter fun issue => issue.pull_request.isSome).filterMap
        (fun issue => wOk.prDetail issue.number) ∧
    (runPipeline cfgOk wNoUser).1 = Outcome.error PipelineError.currentUserFailed ∧
    (runPipeline cfgOk wSearchFail).1 = Outcome.error PipelineError.searchFailed ∧
    (runPipeline cfgOk wCommitsFail).1 = Outcome.error PipelineError.commitsFailed ∧
    (runPipeline cfgOk wDispatchFail).1 = Outcome.error PipelineError.dispatchFailed :=
  ⟨c9_only_detail_fetch_tolerates_failure.1 wOk [⟨11, some ()⟩],
   c9_only_detail_fetch_tolerates_failure.2.1 cfgOk wNoUser "token" "wfid" "acme" "deploy"
     rfl rfl rfl rfl rfl,
   c9_only_detail_fetch_tolerates_failure.2.2.1 cfgOk wSearchFail "token" "wfid" "acme"
     "deploy" "octocat" 2 rfl rfl rfl rfl rfl rfl (by decide) rfl,
   c9_only_detail_fetch_tolerates_failure.2.2.2.1 cfgOk wCommitsFail "token" "wfid" "acme"
     "deploy" "octocat" 2 [⟨11, some ()⟩] 0 prFix rfl rfl rfl rfl rfl rfl (by decide) rfl rfl
     (by decide) rfl,
   c9_only_detail_fetch_tolerates_failure.2.2.2.2 cfgOk wDispatchFail "token" "wfid" "acme"
     "deploy" "octocat" 2 [⟨11, some ()⟩] 0 prFix ⟨shaFix⟩ [] rfl rfl rfl rfl rfl rfl
     (by decide) rfl rfl (by decide) rfl (by decide) rfl⟩

/-- C10 (confirmed): the short-hash extraction is total exactly when the
sha has at least 7 characters, and on a shorter sha the run panics (it
does not return the pipeline's error result). -/
theorem c10_sha_slice_partiality :
    (∀ s : String, (shaSlice7 s).isSome = true ↔ 7 ≤ s.length) ∧
    (∀ cfg w tok wid org repo u i items k pr c cs,
      cfg.github_token = some tok →
      cfg.deploy_experimental_workflow_id = some wid →
      cfg.github_org = some org → cfg.github_repo = some repo →
      w.currentUser = some u → w.envChoice = some i → i < 6 →
      w.searchItems = some items → w.prChoice = some k →
      (fetchPRs w items).1[k]? = some pr →
      w.listCommits pr.head_ref = some (c :: cs) → c.sha.length < 7 →
      (runPipeline cfg w).1 = Outcome.panicked "byte index 7 is out of bounds" ∧
      ∀ e, (runPipeline cfg w).1 ≠ Outcome.error e) := by
  refine ⟨shaSlice7_isSome_iff, ?_⟩
  intro cfg w tok wid org repo u i items k pr c cs h1 h2 h3 h4 h5 h6 h7 h8 h9 h10 hc hshort
  have hrun := runPipeline_reach_commit cfg w tok wid org repo u i items k pr
    h1 h2 h3 h4 h5 h6 h7 h8 h9 h10
  have hout : (runPipeline cfg w).1 = Outcome.panicked "byte index 7 is out of bounds" := by
    rw [hrun]
    simp [commitFlow, hc, shaSlice7, hshort]
  refine ⟨hout, ?_⟩
  intro e he
  rw [hout] at he
  exact Outcome.noConfusion he

/-- C10 witness: the theorem applied to a sha of length 3. -/
theorem c10_witness :
    ((shaSlice7 "abc").isSome = true ↔ 7 ≤ ("abc" : String).length) ∧
    (runPipeline cfgOk wShortSha).1 = Outcome.panicked "byte index 7 is out of bounds" :=
  ⟨c10_sha_slice_partiality.1 "abc",
   (c10_sha_slice_partiality.2 cfgOk wShortSha "token" "wfid" "acme" "deploy" "octocat" 2
     [⟨11, some ()⟩] 0 prFix ⟨"abc"⟩ [] rfl rfl rfl rfl rfl rfl (by decide) rfl rfl
     (by decide) rfl (by decide)).1⟩

end Deploy
